import Mathlib

/-!
Verification of the sr-timesheet ledger synchronization and reconciliation
core against its specification.

The development shallowly embeds the two Deno edge functions of the
repository:

* the entry-append function (`src/unnamed/part_000`, first variant:
  `sendSlackAlert`, `findOrCreateSpreadsheet`, and the `Deno.serve`
  handler), and
* the reconciliation function
  (`src/supabase/functions/timesheet-monitor/index.ts`:
  `findSpreadsheet`, `getTimesheetEntries`, `sendSlackNotification`,
  `checkTimesheets`).

Conventions of the embedding:

* JavaScript `Date` values are modelled as integer milliseconds since the
  Unix epoch.  The edge runtime's local time zone is UTC, so
  `setHours(0,0,0,0)` is truncation to the enclosing UTC day and
  `getDay` / `toISOString` are computed from the UTC calendar.
* The Google Drive / Sheets backing store is modelled as an explicit
  state value (`DriveState`); every mutating API call performed by the
  code is recorded in an operation log (`MutOp`).
* Fallible operations return `Except String`; a thrown JS error is an
  `Except.error`.
* JS `parseFloat` is modelled for plain decimal literals (optional sign,
  integer and fraction digits); `none` stands for `NaN`.
-/

/- ### Calendar arithmetic (model of the JS `Date` built-ins) -/

/-- One day in milliseconds. -/
def dayMs : Int := 86400000

/-- The fixed IST offset used by the submit handler:
`5.5 * 60 * 60 * 1000` milliseconds (UTC+5:30). -/
def istOffset : Int := 19800000

/-- Days from the civil epoch 1970-01-01 for a proleptic Gregorian date
(the arithmetic underlying `new Date("YYYY-MM-DD")`, which yields UTC
midnight of that calendar day).  Uses floor division throughout, which is
Lean's `Int` division. -/
def daysFromCivil (y m d : Int) : Int :=
  let y' := if m ≤ 2 then y - 1 else y
  let era := y' / 400
  let yoe := y' - era * 400
  let mp := (m + 9) % 12
  let doy := (153 * mp + 2) / 5 + d - 1
  let doe := yoe * 365 + yoe / 4 - yoe / 100 + doy
  era * 146097 + doe - 719468

/-- Inverse of `daysFromCivil`: the civil date `(y, m, d)` of a day
number (used to model `toISOString`). -/
def civilFromDays (z0 : Int) : Int × Int × Int :=
  let z := z0 + 719468
  let era := z / 146097
  let doe := z - era * 146097
  let yoe := (doe - doe / 1460 + doe / 36524 - doe / 146096) / 365
  let y := yoe + era * 400
  let doy := doe - (365 * yoe + yoe / 4 - yoe / 100)
  let mp := (5 * doy + 2) / 153
  let d := doy - (153 * mp + 2) / 5 + 1
  let m := mp + (if mp < 10 then 3 else -9)
  (if m ≤ 2 then y + 1 else y, m, d)

/-- Number of days of month `m` of year `y` (Gregorian). -/
def daysInMonth (y m : Int) : Int :=
  if m = 2 then (if (y % 4 = 0 ∧ y % 100 ≠ 0) ∨ y % 400 = 0 then 29 else 28)
  else if m = 4 ∨ m = 6 ∨ m = 9 ∨ m = 11 then 30 else 31

/-- Split a character list at a separator (the groups of
`s.split('-')`). -/
def splitOnChar (sep : Char) : List Char → List (List Char)
  | [] => [[]]
  | c :: cs =>
    let r := splitOnChar sep cs
    if c == sep then [] :: r
    else
      match r with
      | [] => [[c]]
      | g :: gs => (c :: g) :: gs

/-- Value of a list of decimal digit characters. -/
def digitsToNat (cs : List Char) : Nat :=
  cs.foldl (fun a c => a * 10 + (c.toNat - 48)) 0

/-- A nonempty all-digit character group as a number, else `none`. -/
def charsToNat? (cs : List Char) : Option Nat :=
  if cs.isEmpty || !cs.all Char.isDigit then none else some (digitsToNat cs)

/-- Parse a `"YYYY-MM-DD"` string into its numeric parts, validating the
calendar date (model of ISO date parsing by `new Date`; an out-of-range
month or day yields an Invalid Date, i.e. `none`). -/
def parseDateParts (s : String) : Option (Int × Int × Int) :=
  match splitOnChar '-' s.data with
  | [ys, ms, ds] =>
    match charsToNat? ys, charsToNat? ms, charsToNat? ds with
    | some y, some m, some d =>
      if 1 ≤ m ∧ m ≤ 12 ∧ 1 ≤ d ∧ (d : Int) ≤ daysInMonth y m then
        some ((y : Int), (m : Int), (d : Int))
      else none
    | _, _, _ => none
  | _ => none

/-- Model of `new Date(s).getTime()` for an ISO `"YYYY-MM-DD"` string:
UTC midnight of the named day; `none` is `NaN` (Invalid Date). -/
def jsParseDateMs (s : String) : Option Int :=
  (parseDateParts s).map (fun p => daysFromCivil p.1 p.2.1 p.2.2 * dayMs)

/-- Model of `Date.prototype.setHours(0,0,0,0)` with the runtime's local
time zone being UTC: truncate the timestamp to the start of its UTC day. -/
def jsSetHoursZero (t : Int) : Int := (t / dayMs) * dayMs

/-- Model of `Date.prototype.getDay()` (0 = Sunday … 6 = Saturday) under
a UTC local time zone.  1970-01-01 was a Thursday (= 4). -/
def jsGetDay (t : Int) : Int := (t / dayMs + 4) % 7

/-- Zero-pad a (nonnegative) number to two digits. -/
def pad2 (n : Int) : String := if n < 10 then "0" ++ toString n else toString n

/-- Model of `date.toISOString().split('T')[0]` for nonnegative
timestamps: the `"YYYY-MM-DD"` string of the UTC calendar day. -/
def toIsoDateStr (t : Int) : String :=
  match civilFromDays (t / dayMs) with
  | (y, m, d) => toString y ++ "-" ++ pad2 m ++ "-" ++ pad2 d

/- ### Back-dated entry detection (submit handler, lines 182-203) -/

/-- Embedding of the handler's back-date test:

```js
const currentDateIST = new Date(now.getTime() + istOffset);
const submittedDateIST = new Date(submittedDate.getTime() + istOffset);
currentDateIST.setHours(0, 0, 0, 0);
submittedDateIST.setHours(0, 0, 0, 0);
submittedDateIST < currentDateIST
```
-/
def isBackdated (submittedMs nowMs : Int) : Bool :=
  decide (jsSetHoursZero (submittedMs + istOffset) < jsSetHoursZero (nowMs + istOffset))

/-- The calendar-day index of a timestamp at the fixed UTC+5:30 offset
(the specification's "truncated to midnight at the fixed UTC+5:30
offset", expressed as a day count). -/
def istCalendarDay (t : Int) : Int := (t + istOffset) / dayMs

theorem dayMs_pos : (0 : Int) < dayMs := by norm_num [dayMs]

/-- C2: an entry is classified back-dated iff its date, truncated to
midnight at the fixed UTC+5:30 offset, is strictly earlier than the
current date truncated at the same offset; consequently a same-day entry
is never back-dated and a future-dated entry is never back-dated. -/
theorem backdate_detection :
    (∀ e n : Int, isBackdated e n = true ↔ istCalendarDay e < istCalendarDay n) ∧
    (∀ e n : Int, istCalendarDay e = istCalendarDay n → isBackdated e n = false) ∧
    (∀ e n : Int, istCalendarDay n < istCalendarDay e → isBackdated e n = false) := by
  have key : ∀ e n : Int, isBackdated e n = true ↔ istCalendarDay e < istCalendarDay n := by
    intro e n
    unfold isBackdated jsSetHoursZero istCalendarDay
    rw [decide_eq_true_iff]
    exact mul_lt_mul_right dayMs_pos
  refine ⟨key, ?_, ?_⟩
  · intro e n h
    have := (key e n).not
    simp only [Bool.not_eq_true] at this
    exact this.mpr (by omega)
  · intro e n h
    have := (key e n).not
    simp only [Bool.not_eq_true] at this
    exact this.mpr (by omega)

/- ### The Drive/Sheets backing store -/

/-- One sheet (month partition) of a spreadsheet: a title and its rows,
each row a list of cell strings. -/
structure Sheet where
  title : String
  rows : List (List String)
deriving DecidableEq, Repr

/-- The MIME type the code filters spreadsheet files by. -/
def sheetMime : String := "application/vnd.google-apps.spreadsheet"

/-- A Drive file.  Every file carries its MIME type and parent folders so
the two search queries of the code can be embedded exactly. -/
structure Spreadsheet where
  id : String
  name : String
  mimeType : String
  parents : List String
  sheets : List Sheet
deriving DecidableEq, Repr

/-- The backing store: the files in Drive plus a fresh-id counter for
newly created spreadsheets. -/
structure DriveState where
  files : List Spreadsheet
  nextId : Nat
deriving DecidableEq, Repr

/-- A mutating backing-store call, as recorded in the operation log:
resource creation, partition creation (rename of the implicit default
partition or explicit addition), header write, or row append. -/
inductive MutOp where
  | createFile (name : String)
  | renameDefaultSheet (title : String)
  | addSheet (title : String)
  | writeHeader (title : String)
  | appendRow (title : String) (row : List String)
deriving DecidableEq, Repr

/-- The fixed month-name list of both functions. -/
def MONTHS : List String :=
  ["January", "February", "March", "April", "May", "June",
   "July", "August", "September", "October", "November", "December"]

/-- The fixed header row written to every partition at creation. -/
def headerRow : List String := ["Date", "Project", "Task", "Hours"]

/-- The append path's search query (`findOrCreateSpreadsheet`, lines
97-100): name equality, parent-folder membership, and spreadsheet MIME
type. -/
def filesListScoped (st : DriveState) (fileName folderId : String) : List Spreadsheet :=
  st.files.filter (fun f =>
    f.name == fileName && f.parents.contains folderId && f.mimeType == sheetMime)

/-- The reconciliation path's search (`findSpreadsheet`,
timesheet-monitor lines 68-80): name equality and spreadsheet MIME type
only — the query has no parent-folder clause.  Returns
`files?.[0]?.id || null`. -/
def findSpreadsheet (st : DriveState) (userEmail : String) : Option String :=
  let fileName := "Timesheet - " ++ userEmail
  ((st.files.filter (fun f => f.name == fileName && f.mimeType == sheetMime)).head?).map
    (fun f => f.id)

/-- `drive.files.create` of a spreadsheet: the new resource starts with
the store's implicitly created default partition (sheetId 0). -/
def newSpreadsheet (id name folderId : String) : Spreadsheet :=
  { id := id, name := name, mimeType := sheetMime, parents := [folderId],
    sheets := [{ title := "Sheet1", rows := [] }] }

/-- `updateSheetProperties` on sheetId 0: rename the default (first)
partition. -/
def renameDefault (ss : Spreadsheet) (newTitle : String) : Spreadsheet :=
  { ss with sheets :=
      match ss.sheets with
      | [] => []
      | sh :: rest => { sh with title := newTitle } :: rest }

/-- `values.update` on range `A1:D1`: overwrite the first row of the
named partition with the header row. -/
def writeHeaderTo (ss : Spreadsheet) (title : String) : Spreadsheet :=
  { ss with sheets := ss.sheets.map (fun sh =>
      if sh.title == title then { sh with rows := headerRow :: sh.rows.drop 1 } else sh) }

/-- One iteration of the provisioning loop of `findOrCreateSpreadsheet`
(lines 119-161): rename the default partition for `i = 0`, add a new
partition otherwise, then write the header row. -/
def provisionMonth (ss : Spreadsheet) (i : Nat) : Spreadsheet × List MutOp :=
  let title := MONTHS.getD i ""
  let step :=
    if i = 0 then (renameDefault ss title, [MutOp.renameDefaultSheet title])
    else ({ ss with sheets := ss.sheets ++ [{ title := title, rows := [] }] },
          [MutOp.addSheet title])
  (writeHeaderTo step.1 title, step.2 ++ [MutOp.writeHeader title])

/-- The full provisioning loop: all 12 partitions in fixed order,
January first. -/
def provisionAll (ss : Spreadsheet) : Spreadsheet × List MutOp :=
  (List.range 12).foldl
    (fun acc i =>
      let step := provisionMonth acc.1 i
      (step.1, acc.2 ++ step.2))
    (ss, [])

/-- Embedding of `findOrCreateSpreadsheet` (submit function, lines
88-164).  Returns the ledger id, the updated store, and the log of
mutating calls performed; throws (`Except.error`) when the parent folder
is not configured. -/
def findOrCreateSpreadsheet (st : DriveState) (folderId : Option String)
    (userEmail : String) : Except String (String × DriveState × List MutOp) :=
  let fileName := "Timesheet - " ++ userEmail
  match folderId with
  | none => .error "GOOGLE_DRIVE_FOLDER_ID environment variable is not set"
  | some fid =>
    match filesListScoped st fileName fid with
    | f :: _ => .ok (f.id, st, [])
    | [] =>
      let newId := "ss-" ++ toString st.nextId
      let created := provisionAll (newSpreadsheet newId fileName fid)
      .ok (newId,
           { files := st.files ++ [created.1], nextId := st.nextId + 1 },
           MutOp.createFile fileName :: created.2)

/-- The rows of the sheet named `title` of the (first) file with id
`sid`, if both exist. -/
def getRows (st : DriveState) (sid title : String) : Option (List (List String)) :=
  (st.files.find? (fun f => f.id == sid)).bind (fun f =>
    ((f.sheets.find? (fun sh => sh.title == title)).map (fun sh => sh.rows)))

/-- Whether the addressed range exists (the Sheets API rejects an append
to a nonexistent sheet). -/
def sheetExistsIn (st : DriveState) (sid title : String) : Bool :=
  (getRows st sid title).isSome

/-- `values.append`: add one row at the end of the named partition of the
file with id `sid`; every other partition and file is untouched. -/
def appendRowToSheet (st : DriveState) (sid title : String) (row : List String) :
    DriveState :=
  { st with files := st.files.map (fun f =>
      if f.id == sid then
        { f with sheets := f.sheets.map (fun sh =>
            if sh.title == title then { sh with rows := sh.rows ++ [row] } else sh) }
      else f) }

/- ### The submit handler (entry append) -/

/-- The environment configuration the submit function reads. -/
structure Env where
  folderId : Option String
  slackUrl : Option String
deriving DecidableEq, Repr

/-- The JSON body of a submit request; `none` is an absent field.
`hours` arrives as a JSON number, modelled as an integer. -/
structure SubmitRequest where
  date : Option String
  hours : Option Int
  project : Option String
  description : Option String
  userEmail : Option String
  userName : Option String
deriving DecidableEq, Repr

/-- JS falsiness of an optional string: absent or empty. -/
def strFalsy : Option String → Bool
  | none => true
  | some s => s == ""

/-- JS falsiness of an optional number: absent or zero (a negative
number is truthy). -/
def numFalsy : Option Int → Bool
  | none => true
  | some n => n == 0

/-- The handler's validation test
(`!date || !hours || !project || !description || !userEmail`). -/
def missingRequired (r : SubmitRequest) : Bool :=
  strFalsy r.date || numFalsy r.hours || strFalsy r.project ||
    strFalsy r.description || strFalsy r.userEmail

/-- Embedding of `sendSlackAlert` (submit function, lines 29-86).
`postResult` is the outcome of the webhook `fetch`.  The function
returns normally in every case: a missing webhook URL is logged and
returned, and the `try`/`catch` swallows any post failure ("Don't throw
the error to prevent blocking the timesheet submission"). -/
def sendSlackAlert (slackUrl : Option String) (postResult : Except String Unit) :
    Except String Unit :=
  match slackUrl with
  | none => .ok ()
  | some _ =>
    match postResult with
    | .ok _ => .ok ()
    | .error _ => .ok ()

/-- The month partition addressed by `MONTHS[new Date(date).getMonth()]`
for an ISO date string (a UTC runtime): the name of the date's calendar
month; `none` when the date does not parse (`getMonth` is `NaN` and the
subsequent append fails). -/
def monthNameOf (s : String) : Option String :=
  (parseDateParts s).map (fun p => MONTHS.getD (p.2.1 - 1).toNat "")

/-- Embedding of the submit `Deno.serve` handler (lines 166-244).
Returns the request outcome together with the resulting store state and
the log of mutating calls (an error before any mutation leaves the store
unchanged with an empty log). -/
def handleSubmit (env : Env) (st : DriveState) (nowMs : Int) (req : SubmitRequest)
    (slackPostResult : Except String Unit) :
    Except String Unit × DriveState × List MutOp :=
  if missingRequired req then (.error "Missing required fields", st, [])
  else
    let dateStr := req.date.getD ""
    let alertStep :=
      match jsParseDateMs dateStr with
      | some dMs =>
        if isBackdated dMs nowMs then sendSlackAlert env.slackUrl slackPostResult
        else .ok ()
      | none => .ok ()
    match alertStep with
    | .error e => (.error e, st, [])
    | .ok _ =>
      match findOrCreateSpreadsheet st env.folderId (req.userEmail.getD "") with
      | .error e => (.error e, st, [])
      | .ok (sid, st1, ops) =>
        match monthNameOf dateStr with
        | none => (.error "Unable to parse range", st1, ops)
        | some mn =>
          if sheetExistsIn st1 sid mn then
            let row := [dateStr, req.project.getD "", req.description.getD "",
                        toString (req.hours.getD 0)]
            (.ok (), appendRowToSheet st1 sid mn row, ops ++ [MutOp.appendRow mn row])
          else (.error "Unable to parse range", st1, ops)

/- ### The reconciliation function (timesheet-monitor) -/

/-- Model of JS `parseFloat` for plain decimal literals, in scaled-integer
form: optional leading whitespace, optional sign, then the longest prefix
of digits with an optional fractional part.  The result is the mantissa
and the number of fraction digits (value = mantissa / 10 ^ fracLen);
`none` stands for `NaN` (no digits at all).  Exponent forms are outside
the inputs this code meets. -/
def jsParseFloatScaled (s : String) : Option (Int × Nat) :=
  let cs := s.data.dropWhile (fun c => c == ' ' || c == '\t' || c == '\n')
  let signed : Int × List Char :=
    match cs with
    | '-' :: rest => (-1, rest)
    | '+' :: rest => (1, rest)
    | _ => (1, cs)
  let intPart := signed.2.takeWhile Char.isDigit
  let afterInt := signed.2.dropWhile Char.isDigit
  let fracPart :=
    match afterInt with
    | '.' :: rest => rest.takeWhile Char.isDigit
    | _ => []
  if intPart.isEmpty && fracPart.isEmpty then none
  else
    some (signed.1 * (digitsToNat intPart * 10 ^ fracPart.length + digitsToNat fracPart),
          fracPart.length)

/-- The parsed float as a rational. -/
def jsParseFloat (s : String) : Option Rat :=
  (jsParseFloatScaled s).map (fun p => (p.1 : Rat) / (10 : Rat) ^ p.2)

/-- The hours value of a sheet row: `parseFloat(row[3]) || 0` — a
missing cell (`parseFloat(undefined)` is `NaN`) or a non-numeric cell
contributes `0`. -/
def rowHours (r : List String) : Rat :=
  ((r[3]?).bind jsParseFloat).getD 0

/-- A parsed timesheet entry as built by `getTimesheetEntries` (cells
beyond the row's length are `undefined`, i.e. `none`). -/
structure TsEntry where
  date : Option String
  project : Option String
  description : Option String
  hours : Rat
deriving DecidableEq, Repr

/-- The per-row constructor of `getTimesheetEntries`. -/
def entryOfRow (r : List String) : TsEntry :=
  { date := r[0]?, project := r[1]?, description := r[2]?, hours := rowHours r }

/-- Embedding of `getTimesheetEntries` (timesheet-monitor, lines
82-103) applied to the result of the range read: any read error is
caught and yields `[]`; otherwise the header row is skipped, rows whose
first cell equals `date` are kept and parsed. -/
def getTimesheetEntries (readResult : Except String (List (List String)))
    (date : String) : List TsEntry :=
  match readResult with
  | .error _ => []
  | .ok rows => ((rows.drop 1).filter (fun r => r[0]? == some date)).map entryOfRow

/-- The range read performed by `getTimesheetEntries`: the
`MONTHS[new Date(date).getMonth()]` sheet of the spreadsheet, full
columns `A:D`.  `failing` is the set of spreadsheet ids whose reads fail
transiently (network/availability); a nonexistent sheet is also an API
error. -/
def readMonthSheet (st : DriveState) (failing : List String) (sid dateStr : String) :
    Except String (List (List String)) :=
  if failing.contains sid then .error "transient read failure"
  else
    match monthNameOf dateStr with
    | none => .error "Unable to parse range"
    | some mn =>
      match getRows st sid mn with
      | some rows => .ok rows
      | none => .error "Unable to parse range"

/-- A roster user as returned by `listUsers`. -/
structure RosterUser where
  email : String
  displayName : Option String
deriving DecidableEq, Repr

/-- One line of the reconciliation report
(`{user, status}` / `{user, status, hoursLogged}`). -/
structure Report where
  user : RosterUser
  status : String
  hoursLogged : Option Rat
deriving DecidableEq, Repr

/-- An external call made by the reconciliation run, for stating that the
weekend short-circuit performs none of them. -/
inductive MonCall where
  | listUsers
  | filesList (email : String)
  | readRange (sid : String) (dateStr : String)
  | slackPost
deriving DecidableEq, Repr

/-- The per-user body of the `checkTimesheets` loop (lines 225-252):
locate the ledger; absent → `missing`; zero entries for today →
`missing`; total hours `< 8` → `incomplete` with the total; otherwise no
report line. -/
def classifyUser (st : DriveState) (failing : List String) (dateStr : String)
    (u : RosterUser) : Option Report :=
  match findSpreadsheet st u.email with
  | none => some { user := u, status := "missing", hoursLogged := none }
  | some sid =>
    let entries := getTimesheetEntries (readMonthSheet st failing sid dateStr) dateStr
    if entries.length = 0 then some { user := u, status := "missing", hoursLogged := none }
    else
      let total := entries.foldl (fun s e => s + e.hours) 0
      if total < 8 then some { user := u, status := "incomplete", hoursLogged := some total }
      else none

/-- The external calls of one loop iteration: the Drive search, and the
range read when a ledger was found. -/
def userCalls (st : DriveState) (dateStr : String) (u : RosterUser) : List MonCall :=
  match findSpreadsheet st u.email with
  | none => [MonCall.filesList u.email]
  | some sid => [MonCall.filesList u.email, MonCall.readRange sid dateStr]

/-- Embedding of `sendSlackNotification` (timesheet-monitor, lines
124-208).  `getRequiredEnvVar` throws when the webhook URL is missing;
a non-ok response raises, and the `catch` logs and **rethrows** the
error.  Returns the outcome and whether the webhook was actually
posted. -/
def sendSlackNotification (slackUrl : Option String) (postResult : Except String Unit)
    (reports : List Report) : Except String Unit × List MonCall :=
  let _missingReports := reports.filter (fun r => r.status == "missing")
  let _incompleteReports := reports.filter (fun r => r.status == "incomplete")
  match slackUrl with
  | none => (.error "Required environment variable SLACK_WEBHOOK_URL is not set", [])
  | some _ =>
    match postResult with
    | .ok _ => (.ok (), [MonCall.slackPost])
    | .error e => (.error e, [MonCall.slackPost])

/-- Embedding of `checkTimesheets` (timesheet-monitor, lines 210-262).
`rosterResult` is the outcome of `getAllUsers` (its failure is fatal),
`failing` the transiently unreadable spreadsheets, `slackPostResult` the
webhook outcome.  Returns the report list and the log of external calls
made.  On a Saturday or Sunday the function returns before touching the
roster, the ledgers, or the notification channel. -/
def checkTimesheets (st : DriveState) (failing : List String)
    (rosterResult : Except String (List RosterUser)) (nowMs : Int)
    (slackUrl : Option String) (slackPostResult : Except String Unit) :
    Except String (List Report × List MonCall) :=
  if jsGetDay nowMs == 0 || jsGetDay nowMs == 6 then .ok ([], [])
  else
    match rosterResult with
    | .error e => .error e
    | .ok users =>
      let dateStr := toIsoDateStr nowMs
      let reports := users.foldl
        (fun acc u => acc ++ (classifyUser st failing dateStr u).toList) []
      let calls := MonCall.listUsers ::
        users.foldl (fun acc u => acc ++ userCalls st dateStr u) []
      if reports.length > 0 then
        match sendSlackNotification slackUrl slackPostResult reports with
        | (.ok _, c2) => .ok (reports, calls ++ c2)
        | (.error e, _) => .error e
      else .ok (reports, calls)

/- ### Specification-side descriptions used by the claims -/

/-- The rows of a read partition that the specification says are
aggregated: the rows below the header whose date cell equals today
exactly. -/
def specMatchingRows (rows : List (List String)) (dateStr : String) :
    List (List String) :=
  (rows.drop 1).filter (fun r => r[0]? == some dateStr)

/-- The specification's daily total: the sum of the hours column over the
matching rows, a non-numeric or missing hours value counting as 0. -/
def specTotal (rows : List (List String)) (dateStr : String) : Rat :=
  ((specMatchingRows rows dateStr).map rowHours).sum

/- ### Shared helper lemmas -/

/-- Decidable equality for `Except`, used to evaluate concrete handler
outcomes. -/
instance exceptDecEq {e a : Type} [DecidableEq e] [DecidableEq a] :
    DecidableEq (Except e a) := fun x y =>
  match x, y with
  | .ok v, .ok w => if h : v = w then .isTrue (by rw [h]) else .isFalse (by simp [h])
  | .error v, .error w => if h : v = w then .isTrue (by rw [h]) else .isFalse (by simp [h])
  | .ok _, .error _ => .isFalse (by simp)
  | .error _, .ok _ => .isFalse (by simp)

/-- `sendSlackAlert` returns normally on every input: the missing-URL
case returns early and the `catch` swallows post failures. -/
theorem sendSlackAlert_ok (slackUrl : Option String) (postResult : Except String Unit) :
    sendSlackAlert slackUrl postResult = .ok () := by
  cases slackUrl <;> cases postResult <;> rfl

theorem strFalsy_iff (o : Option String) : strFalsy o = true ↔ o = none ∨ o = some "" := by
  cases o with
  | none => simp [strFalsy]
  | some s => simp [strFalsy]

theorem numFalsy_iff (o : Option Int) : numFalsy o = true ↔ o = none ∨ o = some 0 := by
  cases o with
  | none => simp [numFalsy]
  | some n => simp [numFalsy]

theorem foldl_add_hours (l : List TsEntry) (a : Rat) :
    l.foldl (fun s e => s + e.hours) a = a + (l.map TsEntry.hours).sum := by
  induction l generalizing a with
  | nil => simp
  | cons x xs ih => simp [ih, add_assoc]

theorem foldl_append_toList {α β : Type} (f : α → Option β) (l : List α) (a : List β) :
    l.foldl (fun acc u => acc ++ (f u).toList) a = a ++ l.filterMap f := by
  induction l generalizing a with
  | nil => simp
  | cons x xs ih =>
    cases hfx : f x <;> simp [List.filterMap_cons, hfx, ih]

/-- `find?` by a field commutes with a map that preserves that field. -/
theorem find?_map_of_preserves {α : Type} (l : List α) (g : α → α) (p : α → Bool)
    (hg : ∀ x, p (g x) = p x) :
    (l.map g).find? p = (l.find? p).map g := by
  induction l with
  | nil => rfl
  | cons x xs ih =>
    by_cases hx : p x = true
    · rw [List.map_cons, List.find?_cons_of_pos _ (by rw [hg]; exact hx),
        List.find?_cons_of_pos _ hx, Option.map_some']
    · rw [List.map_cons, List.find?_cons_of_neg _ (by rw [hg]; simpa using hx),
        List.find?_cons_of_neg _ (by simpa using hx), ih]

/-- Characterization of `values.append`: the targeted partition of the
targeted file gains exactly one row at its end, and every other
partition of every file is unchanged. -/
theorem getRows_appendRowToSheet (st : DriveState) (sid t : String) (row : List String)
    (sid' t' : String) :
    getRows (appendRowToSheet st sid t row) sid' t' =
      if sid' = sid ∧ t' = t then (getRows st sid' t').map (fun rs => rs ++ [row])
      else getRows st sid' t' := by
  unfold getRows appendRowToSheet
  rw [find?_map_of_preserves _ _ _ (fun f => by by_cases hf : f.id == sid <;> simp [hf])]
  cases hf : st.files.find? (fun f => f.id == sid') with
  | none => simp
  | some f =>
    have hfid : f.id = sid' := by have h := List.find?_some hf; simpa using h
    simp only [Option.map_some', Option.some_bind]
    by_cases hsid : sid' = sid
    · have hid : (f.id == sid) = true := by simp [hfid, hsid]
      rw [hid]
      simp only [if_true]
      rw [find?_map_of_preserves _ _ _
        (fun sh => by by_cases hsh : sh.title == t <;> simp_all)]
      cases hsh : f.sheets.find? (fun sh => sh.title == t') with
      | none => simp [hsid]
      | some sh =>
        have hsht : sh.title = t' := by have h := List.find?_some hsh; simpa using h
        by_cases ht : t' = t
        · have hst : (sh.title == t) = true := by simp [hsht, ht]
          simp [hst, hsid, ht, hsht]
        · have hst : (sh.title == t) = false := by simp [hsht, ht]
          simp [hst, hsid, ht, hsht]
    · have hfalse : (f.id == sid) = false := by simp [hfid, hsid]
      simp [hfalse, hsid]

/- ### Example stores used by the witnesses and counterexamples -/

/-- A fully provisioned ledger for `a@b.com` inside folder `fld`. -/
def exLedger : Spreadsheet :=
  { id := "led-1", name := "Timesheet - a@b.com", mimeType := sheetMime,
    parents := ["fld"], sheets := MONTHS.map (fun m => { title := m, rows := [headerRow] }) }

/-- A store holding just `exLedger`. -/
def exSt : DriveState := { files := [exLedger], nextId := 5 }

/-- The empty store. -/
def emptySt : DriveState := { files := [], nextId := 0 }

/-- Witness for `backdate_detection` at the specification's example:
"today" on the IST calendar day 2024-06-10 (taken at UTC midnight of
2024-06-10), an entry dated 2024-06-09 is back-dated, one dated
2024-06-10 is not, one dated 2024-06-11 is not. -/
theorem backdate_detection_witness :
    istCalendarDay (daysFromCivil 2024 6 10 * dayMs) =
        istCalendarDay (daysFromCivil 2024 6 10 * dayMs) ∧
    istCalendarDay (daysFromCivil 2024 6 10 * dayMs) <
        istCalendarDay (daysFromCivil 2024 6 11 * dayMs) ∧
    isBackdated (daysFromCivil 2024 6 9 * dayMs) (daysFromCivil 2024 6 10 * dayMs) = true ∧
    isBackdated (daysFromCivil 2024 6 10 * dayMs) (daysFromCivil 2024 6 10 * dayMs) = false ∧
    isBackdated (daysFromCivil 2024 6 11 * dayMs) (daysFromCivil 2024 6 10 * dayMs) = false :=
  ⟨rfl, by decide,
   (backdate_detection.1 _ _).mpr (by decide),
   backdate_detection.2.1 _ _ (by decide),
   backdate_detection.2.2 _ _ (by decide)⟩

/- ### C4: idempotent locate-or-create -/

/-- C4: for a user with a pre-existing ledger, `findOrCreateSpreadsheet`
returns that ledger's id with no mutating call, and a second invocation
on the resulting store returns the same id, again with zero creation
calls (no resource creation, no partition creation, no header write). -/
theorem locateOrCreate_idempotent (st : DriveState) (fid u : String)
    (f : Spreadsheet) (fs : List Spreadsheet)
    (hfind : filesListScoped st ("Timesheet - " ++ u) fid = f :: fs) :
    ∃ st₁, findOrCreateSpreadsheet st (some fid) u = .ok (f.id, st₁, []) ∧
      findOrCreateSpreadsheet st₁ (some fid) u = .ok (f.id, st₁, []) :=
  ⟨st, by simp [findOrCreateSpreadsheet, hfind], by simp [findOrCreateSpreadsheet, hfind]⟩

/-- Witness for `locateOrCreate_idempotent`: the ledger of `a@b.com`
pre-exists in `exSt`; both calls return `led-1` and an empty operation
log. -/
theorem locateOrCreate_idempotent_witness :
    ∃ st₁, findOrCreateSpreadsheet exSt (some "fld") "a@b.com" = .ok ("led-1", st₁, []) ∧
      findOrCreateSpreadsheet st₁ (some "fld") "a@b.com" = .ok ("led-1", st₁, []) :=
  locateOrCreate_idempotent exSt "fld" "a@b.com" exLedger [] (by decide)

/- ### C6: locate scoping -/

/-- A store whose only ledger for `a@b.com` lives outside the configured
parent folder `cfg-folder`. -/
def straySt : DriveState :=
  { files := [{ id := "stray-1", name := "Timesheet - a@b.com", mimeType := sheetMime,
                parents := ["other-folder"], sheets := [] }], nextId := 0 }

/-- C6 counterexample: the reconciliation path's `findSpreadsheet`
returns a ledger even though no ledger exists inside the configured
parent container — its query is not scoped to the container, unlike the
append path's search. -/
theorem monitor_locate_unscoped_cex :
    findSpreadsheet straySt "a@b.com" = some "stray-1" ∧
    filesListScoped straySt "Timesheet - a@b.com" "cfg-folder" = [] ∧
    straySt.files.filter (fun f => f.parents.contains "cfg-folder") = [] := by
  refine ⟨rfl, rfl, rfl⟩

/-- C6 amended: both paths search by the deterministic name
`"Timesheet - " + email` and spreadsheet type and yield "not found" (not
an error) exactly when no such ledger exists, but only the append path
is scoped to the configured parent container; the reconciliation path's
search is unscoped. -/
theorem locate_not_found_behavior (st : DriveState) (u fid : String) :
    (findSpreadsheet st u = none ↔
      ∀ f ∈ st.files, ¬(f.name = "Timesheet - " ++ u ∧ f.mimeType = sheetMime)) ∧
    (filesListScoped st ("Timesheet - " ++ u) fid = [] ↔
      ∀ f ∈ st.files,
        ¬(f.name = "Timesheet - " ++ u ∧ fid ∈ f.parents ∧ f.mimeType = sheetMime)) := by
  constructor
  · rw [findSpreadsheet]
    simp only [Option.map_eq_none', List.head?_eq_none_iff, List.filter_eq_nil_iff]
    constructor
    · intro h f hf hc
      have := h f hf
      simp only [Bool.and_eq_true, beq_iff_eq] at this
      exact this ⟨hc.1, hc.2⟩
    · intro h f hf
      have := h f hf
      simp only [Bool.and_eq_true, beq_iff_eq]
      tauto
  · rw [filesListScoped]
    simp only [List.filter_eq_nil_iff]
    constructor
    · intro h f hf hc
      have := h f hf
      simp only [Bool.and_eq_true, beq_iff_eq, List.elem_iff] at this
      exact this ⟨⟨hc.1, hc.2.1⟩, hc.2.2⟩
    · intro h f hf
      have := h f hf
      simp only [Bool.and_eq_true, beq_iff_eq, List.elem_iff]
      tauto

/- ### C5: request validation -/

/-- C5 counterexample input: every field present and non-empty but
`hours` negative (not positive). -/
def negReq : SubmitRequest :=
  { date := some "2024-06-10", hours := some (-1), project := some "P",
    description := some "D", userEmail := some "a@b.com", userName := none }

/-- C5 counterexample: a request whose `hours` is `-1` — not positive —
is *not* rejected: the handler succeeds and appends the row, because the
validation only tests JS falsiness (`!hours`), which a negative number
passes. -/
theorem negative_hours_accepted :
    handleSubmit { folderId := some "fld", slackUrl := none } exSt
        (daysFromCivil 2024 6 10 * dayMs) negReq (.ok ()) =
      (.ok (), appendRowToSheet exSt "led-1" "June" ["2024-06-10", "P", "D", "-1"],
       [MutOp.appendRow "June" ["2024-06-10", "P", "D", "-1"]]) := by
  decide

/-- C5 amended: a request in which `date`, `project`, `description` or
`userEmail` is absent or empty, or `hours` is absent or zero, fails with
the validation error and has no effect (store unchanged, no mutating
call); a non-zero negative `hours` is not caught by this validation. -/
theorem validation_falsy_behavior :
    (∀ (env : Env) (st : DriveState) (nowMs : Int) (req : SubmitRequest)
        (p : Except String Unit), missingRequired req = true →
      handleSubmit env st nowMs req p = (.error "Missing required fields", st, [])) ∧
    (∀ req : SubmitRequest, missingRequired req = true ↔
      (req.date = none ∨ req.date = some "" ∨ req.hours = none ∨ req.hours = some 0 ∨
       req.project = none ∨ req.project = some "" ∨ req.description = none ∨
       req.description = some "" ∨ req.userEmail = none ∨ req.userEmail = some "")) := by
  constructor
  · intro env st nowMs req p h
    simp [handleSubmit, h]
  · intro req
    simp only [missingRequired, Bool.or_eq_true, strFalsy_iff, numFalsy_iff]
    tauto

/-- Witness for `validation_falsy_behavior`: a request with `hours = 0`
is rejected with no effect on the store. -/
theorem validation_falsy_behavior_witness :
    handleSubmit { folderId := some "fld", slackUrl := none } exSt 0
        { date := some "2024-06-10", hours := some 0, project := some "P",
          description := some "D", userEmail := some "a@b.com", userName := none }
        (.ok ()) =
      (.error "Missing required fields", exSt, []) :=
  validation_falsy_behavior.1 _ _ _ _ _ (by decide)

/- ### C3: notification-dispatch failure propagation -/

/-- C3 counterexample: with one roster user on a weekday (2024-06-10, a
Monday) and a failing webhook post, the reconciliation run itself fails
(`checkTimesheets` rethrows the dispatch error), while the same failing
post on the back-dated-alert path is swallowed. -/
theorem daily_report_failure_propagates :
    checkTimesheets emptySt [] (.ok [{ email := "a@b.com", displayName := none }])
        (daysFromCivil 2024 6 10 * dayMs) (some "hook") (.error "post failed") =
      .error "post failed" ∧
    sendSlackAlert (some "hook") (.error "post failed") = .ok () := by
  refine ⟨rfl, rfl⟩

/-- C3 amended: a back-dated-alert failure is swallowed — `sendSlackAlert`
returns normally on every input and the submit handler's outcome is
independent of the webhook post result — but a daily-report post failure
is rethrown by `sendSlackNotification` and so fails the reconciliation
run. -/
theorem notification_failure_handling :
    (∀ (url : Option String) (post : Except String Unit),
      sendSlackAlert url post = .ok ()) ∧
    (∀ (env : Env) (st : DriveState) (nowMs : Int) (req : SubmitRequest)
        (p₁ p₂ : Except String Unit),
      handleSubmit env st nowMs req p₁ = handleSubmit env st nowMs req p₂) ∧
    (∀ (url e : String) (reports : List Report),
      (sendSlackNotification (some url) (.error e) reports).1 = .error e) := by
  refine ⟨sendSlackAlert_ok, ?_, fun url e reports => rfl⟩
  intro env st nowMs req p₁ p₂
  simp only [handleSubmit, sendSlackAlert_ok]

/-- Evaluation lemma for the hours cell of a concrete row. -/
theorem rowHours_eval (r : List String) (s : String) (m : Int) (k : Nat)
    (h1 : r[3]? = some s) (h2 : jsParseFloatScaled s = some (m, k)) :
    rowHours r = (m : Rat) / (10 : Rat) ^ k := by
  simp [rowHours, h1, jsParseFloat, h2]

/- ### C9: weekend short-circuit -/

/-- C9: on a Saturday or a Sunday the reconciliation run returns the
empty report and the empty call log — no roster enumeration, no ledger
read, no notification post — whatever the state of the roster, the
store, or the notification channel. -/
theorem weekend_short_circuit (st : DriveState) (failing : List String)
    (rosterResult : Except String (List RosterUser)) (nowMs : Int)
    (slackUrl : Option String) (post : Except String Unit)
    (h : jsGetDay nowMs = 0 ∨ jsGetDay nowMs = 6) :
    checkTimesheets st failing rosterResult nowMs slackUrl post = .ok ([], []) := by
  unfold checkTimesheets
  rcases h with h | h <;> simp [h]

/-- Witness for `weekend_short_circuit`: 2024-06-08 is a Saturday; even
with a failing roster enumeration and a failing webhook the run returns
the empty report with no external call. -/
theorem weekend_short_circuit_witness :
    checkTimesheets emptySt [] (.error "roster down") (daysFromCivil 2024 6 8 * dayMs)
      (some "hook") (.error "post failed") = .ok ([], []) :=
  weekend_short_circuit _ _ _ _ _ _ (Or.inr (by decide))

/- ### C1: reconciliation aggregation and classification -/

/-- C1: for a roster user whose ledger is located and whose month
partition reads successfully, the classification is exactly: no row
below the header with today's date → `missing`; summed hours (missing or
non-numeric cells counting 0) strictly below 8 → `incomplete` carrying
the sum; otherwise no report line at all. -/
theorem reconciler_classification (st : DriveState) (failing : List String)
    (u : RosterUser) (sid dateStr : String) (rows : List (List String))
    (hfind : findSpreadsheet st u.email = some sid)
    (hread : readMonthSheet st failing sid dateStr = .ok rows) :
    classifyUser st failing dateStr u =
      (if specMatchingRows rows dateStr = [] then
        some { user := u, status := "missing", hoursLogged := none }
      else if specTotal rows dateStr < 8 then
        some { user := u, status := "incomplete",
               hoursLogged := some (specTotal rows dateStr) }
      else none) := by
  unfold classifyUser
  rw [hfind]
  dsimp only
  rw [hread]
  have hentries : getTimesheetEntries (.ok rows) dateStr =
      (specMatchingRows rows dateStr).map entryOfRow := rfl
  rw [hentries]
  have htot : ((specMatchingRows rows dateStr).map entryOfRow).foldl
      (fun s e => s + e.hours) 0 = specTotal rows dateStr := by
    rw [foldl_add_hours, zero_add, List.map_map]
    rfl
  by_cases hm : specMatchingRows rows dateStr = []
  · simp [hm]
  · have hlen : ¬((specMatchingRows rows dateStr).map entryOfRow).length = 0 := by
      simpa [List.length_eq_zero] using hm
    rw [if_neg hlen, if_neg hm, htot]

/-- The specification's aggregation example: header row plus two rows
dated 2024-06-10 with 3 and 4 hours and one row dated 2024-06-09 with
10 hours. -/
def exRows : List (List String) :=
  [headerRow,
   ["2024-06-10", "P1", "T1", "3"],
   ["2024-06-10", "P2", "T2", "4"],
   ["2024-06-09", "P3", "T3", "10"]]

/-- A store whose ledger for `a@b.com` holds `exRows` in its June
partition. -/
def exStC1 : DriveState :=
  { files := [{ id := "led-1", name := "Timesheet - a@b.com", mimeType := sheetMime,
                parents := ["fld"],
                sheets := [{ title := "June", rows := exRows }] }], nextId := 0 }

/-- Witness for `reconciler_classification` at the specification's
example: the total is 7 (the 2024-06-09 row excluded) and the user is
classified `incomplete` with 7 hours. -/
theorem reconciler_classification_witness :
    classifyUser exStC1 [] "2024-06-10" { email := "a@b.com", displayName := none } =
      some { user := { email := "a@b.com", displayName := none },
             status := "incomplete", hoursLogged := some 7 } := by
  rw [reconciler_classification exStC1 [] { email := "a@b.com", displayName := none }
    "led-1" "2024-06-10" exRows rfl rfl]
  have hm : specMatchingRows exRows "2024-06-10" =
      [["2024-06-10", "P1", "T1", "3"], ["2024-06-10", "P2", "T2", "4"]] := by decide
  have ht : specTotal exRows "2024-06-10" = 7 := by
    rw [specTotal, hm]
    simp only [List.map_cons, List.map_nil, List.sum_cons, List.sum_nil]
    rw [rowHours_eval _ "3" 3 0 (by decide) (by decide),
        rowHours_eval _ "4" 4 0 (by decide) (by decide)]
    norm_num
  rw [hm, ht, if_neg (by simp), if_pos (by norm_num)]

/- ### C10: unconditional header-row exclusion -/

/-- C10: the first row of the read partition is excluded from matching
and summing regardless of its content — `getTimesheetEntries` is
invariant under replacing the first row — so a partition whose only row
is its first row yields zero entries and the user is classified
`missing`, even if that row's date cell equals today. -/
theorem header_row_excluded (st : DriveState) (failing : List String)
    (u : RosterUser) (sid d : String) (r0 : List String)
    (hfind : findSpreadsheet st u.email = some sid)
    (hread : readMonthSheet st failing sid d = .ok [r0]) :
    classifyUser st failing d u =
      some { user := u, status := "missing", hoursLogged := none } ∧
    ∀ (r0' : List String) (rest : List (List String)),
      getTimesheetEntries (.ok (r0 :: rest)) d = getTimesheetEntries (.ok (r0' :: rest)) d := by
  constructor
  · unfold classifyUser
    rw [hfind]
    dsimp only
    rw [hread]
    rfl
  · intro r0' rest
    rfl

/-- A store whose ledger for `c@d.com` has a June partition whose single
row is dated 2024-06-10 with 8 hours. -/
def exStC10 : DriveState :=
  { files := [{ id := "led-x", name := "Timesheet - c@d.com", mimeType := sheetMime,
                parents := ["fld"],
                sheets := [{ title := "June",
                             rows := [["2024-06-10", "P", "T", "8"]] }] }], nextId := 0 }

/-- Witness for `header_row_excluded`: although the partition's only row
is dated today with 8 hours, it is taken for the header and skipped, so
the user is classified `missing`. -/
theorem header_row_excluded_witness :
    classifyUser exStC10 [] "2024-06-10" { email := "c@d.com", displayName := none } =
      some { user := { email := "c@d.com", displayName := none },
             status := "missing", hoursLogged := none } :=
  (header_row_excluded exStC10 [] { email := "c@d.com", displayName := none }
    "led-x" "2024-06-10" ["2024-06-10", "P", "T", "8"] rfl rfl).1

/- ### C8: per-user read failures are non-fatal -/

/-- C8: a failure reading one user's month partition classifies that
user `missing` (the error is caught and treated as zero rows), and the
weekday run with a healthy roster and notification channel still
returns, for the whole roster, exactly the independent per-user
classifications — one user's read failure cannot abort the sweep or
disturb another user's classification. -/
theorem perUser_read_failure_nonfatal (st : DriveState) (failing : List String)
    (users : List RosterUser) (nowMs : Int) (url e : String)
    (u : RosterUser) (sid : String)
    (hday : ¬(jsGetDay nowMs = 0 ∨ jsGetDay nowMs = 6))
    (hfind : findSpreadsheet st u.email = some sid)
    (hread : readMonthSheet st failing sid (toIsoDateStr nowMs) = .error e) :
    classifyUser st failing (toIsoDateStr nowMs) u =
      some { user := u, status := "missing", hoursLogged := none } ∧
    ∃ calls, checkTimesheets st failing (.ok users) nowMs (some url) (.ok ()) =
      .ok (users.filterMap (classifyUser st failing (toIsoDateStr nowMs)), calls) := by
  constructor
  · unfold classifyUser
    rw [hfind]
    dsimp only
    rw [hread]
    rfl
  · push_neg at hday
    have hwk : (jsGetDay nowMs == 0 || jsGetDay nowMs == 6) = false := by
      simp [hday.1, hday.2]
    unfold checkTimesheets
    rw [hwk]
    simp only [Bool.false_eq_true, if_false]
    rw [foldl_append_toList (classifyUser st failing (toIsoDateStr nowMs))]
    simp only [List.nil_append]
    by_cases hlen :
        (users.filterMap (classifyUser st failing (toIsoDateStr nowMs))).length > 0
    · exact ⟨(MonCall.listUsers ::
          users.foldl (fun acc v => acc ++ userCalls st (toIsoDateStr nowMs) v) []) ++
          [MonCall.slackPost], by rw [if_pos hlen]; rfl⟩
    · exact ⟨MonCall.listUsers ::
          users.foldl (fun acc v => acc ++ userCalls st (toIsoDateStr nowMs) v) [],
        by rw [if_neg hlen]⟩

/-- A store with a readable incomplete ledger for `a@b.com` and a ledger
for `c@d.com` whose June partition holds a full 8-hour day. -/
def exStC8 : DriveState :=
  { files :=
      [{ id := "led-1", name := "Timesheet - a@b.com", mimeType := sheetMime,
         parents := ["fld"], sheets := [{ title := "June", rows := exRows }] },
       { id := "led-2", name := "Timesheet - c@d.com", mimeType := sheetMime,
         parents := ["fld"],
         sheets := [{ title := "June", rows := [headerRow] }] }], nextId := 0 }

/-- Witness for `perUser_read_failure_nonfatal`: on Monday 2024-06-10,
with the read of `led-2` failing transiently, `c@d.com` degrades to
`missing` while the run completes and still classifies `a@b.com`
`incomplete` from its readable ledger. -/
theorem perUser_read_failure_nonfatal_witness :
    classifyUser exStC8 ["led-2"] (toIsoDateStr (daysFromCivil 2024 6 10 * dayMs))
        { email := "c@d.com", displayName := none } =
      some { user := { email := "c@d.com", displayName := none },
             status := "missing", hoursLogged := none } ∧
    ∃ calls, checkTimesheets exStC8 ["led-2"]
        (.ok [{ email := "a@b.com", displayName := none },
              { email := "c@d.com", displayName := none }])
        (daysFromCivil 2024 6 10 * dayMs) (some "hook") (.ok ()) =
      .ok ([{ email := "a@b.com", displayName := none },
            { email := "c@d.com", displayName := none }].filterMap
             (classifyUser exStC8 ["led-2"]
               (toIsoDateStr (daysFromCivil 2024 6 10 * dayMs))), calls) :=
  perUser_read_failure_nonfatal exStC8 ["led-2"]
    [{ email := "a@b.com", displayName := none },
     { email := "c@d.com", displayName := none }]
    (daysFromCivil 2024 6 10 * dayMs) "hook" "transient read failure"
    { email := "c@d.com", displayName := none } "led-2"
    (by decide) (by decide) (by decide)

/- ### C7: partition routing on append -/

/-- C7: a valid entry is appended only to the partition named after the
calendar month of the entry's own date — for any submission time
`nowMs` whatsoever — and the append is a pure end-of-partition insertion:
the target partition's rows gain exactly the new row at the end and
every other partition of every ledger is unchanged (second conjunct). -/
theorem partition_routing (env : Env) (st : DriveState) (nowMs : Int)
    (p : Except String Unit) (ds pr de em : String) (un : Option String) (hn : Int)
    (y m d : Int) (f : Spreadsheet) (fs : List Spreadsheet) (fid : String)
    (hds : parseDateParts ds = some (y, m, d))
    (hpr : pr ≠ "") (hde : de ≠ "") (hem : em ≠ "") (hhn : hn ≠ 0)
    (hfid : env.folderId = some fid)
    (hfind : filesListScoped st ("Timesheet - " ++ em) fid = f :: fs)
    (hsheet : sheetExistsIn st f.id (MONTHS.getD (m - 1).toNat "") = true) :
    handleSubmit env st nowMs
        { date := some ds, hours := some hn, project := some pr,
          description := some de, userEmail := some em, userName := un } p =
      (.ok (),
       appendRowToSheet st f.id (MONTHS.getD (m - 1).toNat "")
         [ds, pr, de, toString hn],
       [MutOp.appendRow (MONTHS.getD (m - 1).toNat "") [ds, pr, de, toString hn]]) ∧
    (∀ (st' : DriveState) (sid t : String) (row : List String) (sid' t' : String),
      getRows (appendRowToSheet st' sid t row) sid' t' =
        if sid' = sid ∧ t' = t then (getRows st' sid' t').map (fun rs => rs ++ [row])
        else getRows st' sid' t') := by
  refine ⟨?_, fun st' sid t row sid' t' => getRows_appendRowToSheet st' sid t row sid' t'⟩
  have hdne : ds ≠ "" := by
    intro h
    rw [h] at hds
    exact Option.noConfusion
      (show (none : Option (Int × Int × Int)) = some (y, m, d) from hds)
  have hvalid : missingRequired
      { date := some ds, hours := some hn, project := some pr,
        description := some de, userEmail := some em, userName := un } = false := by
    simp [missingRequired, strFalsy, numFalsy, hpr, hde, hem, hhn, hdne]
  have halert : (match jsParseDateMs ds with
      | some dMs =>
        if isBackdated dMs nowMs = true then sendSlackAlert env.slackUrl p
        else Except.ok ()
      | none => Except.ok ()) = Except.ok () := by
    cases hjp : jsParseDateMs ds with
    | none => rfl
    | some dMs =>
      by_cases hb : isBackdated dMs nowMs = true
      · simp [hb, sendSlackAlert_ok]
      · simp [hb]
  have hfoc : findOrCreateSpreadsheet st env.folderId em = .ok (f.id, st, []) := by
    rw [hfid]
    simp [findOrCreateSpreadsheet, hfind]
  have hmn : monthNameOf ds = some (MONTHS.getD (m - 1).toNat "") := by
    simp [monthNameOf, hds]
  unfold handleSubmit
  rw [hvalid]
  simp only [Bool.false_eq_true, if_false, Option.getD_some, halert, hfoc, hmn, hsheet,
    if_true, List.nil_append]

/-- Witness for `partition_routing`: an entry dated 2024-03-15 submitted
at epoch time 0 lands in the "March" partition of the pre-existing
ledger. -/
theorem partition_routing_witness :
    handleSubmit { folderId := some "fld", slackUrl := none } exSt 0
        { date := some "2024-03-15", hours := some 8, project := some "P",
          description := some "D", userEmail := some "a@b.com", userName := none }
        (.ok ()) =
      (.ok (), appendRowToSheet exSt "led-1" "March" ["2024-03-15", "P", "D", "8"],
       [MutOp.appendRow "March" ["2024-03-15", "P", "D", "8"]]) :=
  (partition_routing { folderId := some "fld", slackUrl := none } exSt 0 (.ok ())
    "2024-03-15" "P" "D" "a@b.com" none 8 2024 3 15 exLedger [] "fld"
    (by decide) (by decide) (by decide) (by decide) (by decide) rfl (by decide)
    (by decide)).1
